import Mathlib

/-!
Shallow embedding of the keypom-js SDK core (key/drop lifecycle management)
and proofs about it.

Embedded source files:
- `src/lib/keypom.ts`   : process-wide environment, `updateKeypomContractId`
- `src/lib/keys.ts`     : `addKeys` (older variant)
- `unnamed/part_005`    : `addKeys` (newer variant with asserts) and `deleteKeys`
- `src/lib/claims.ts`   : `claim`
- `src/lib/selector/core/types.ts` : `FAILED_EXECUTION_OUTCOME`

Helper functions that these files import from `keypom-utils.ts`,
`trial-accounts/trial-active.ts` and `views.ts` are not part of the
repository snapshot; they are modelled from the specification and marked
`Modelled from the spec:` in their doc comments.

Conventions: arbitrary-precision BN amounts become `Nat`; yoctoNEAR string
amounts become `Nat`; JS objects become structures with `Option` fields for
optional members; `async` calls to the ledger are made explicit by returning,
next to the result, the ordered list of network calls (`NetCall`) the
operation performed, so that "no transaction was dispatched" is a statement
about that list.
-/

/-- A public/secret keypair, as produced by the key-derivation black box. -/
structure KeyPair where
  publicKey : String
  secretKey : String
deriving DecidableEq, Repr

/-- Fungible-token descriptor attached to a drop (protocol-returned form,
snake_case as in the contract JSON). -/
structure FTData where
  contract_id : Option String := none
  balance_per_use : Option Nat := none
deriving DecidableEq, Repr

/-- Non-fungible-token descriptor attached to a drop. -/
structure NFTData where
  contract_id : Option String := none
deriving DecidableEq, Repr

/-- One method of a function-call drop (only the fields the estimator needs). -/
structure Method where
  receiverId : String
  methodName : String
  attachedDeposit : Nat
deriving DecidableEq, Repr

/-- Function-call drop descriptor: a list of methods per use. -/
structure FCData where
  methods : List (List Method)
deriving DecidableEq, Repr

/-- Drop configuration (the part used by `addKeys`). -/
structure DropConfig where
  uses_per_key : Nat
deriving DecidableEq, Repr

/-- Drop information as returned by `get_drop_information` (or passed in as
the `drop` parameter). -/
structure Drop where
  drop_id : String
  owner_id : String
  registered_uses : Nat
  required_gas : Nat
  deposit_per_use : Nat
  config : DropConfig
  ft : Option FTData := none
  nft : Option NFTData := none
  fc : Option FCData := none
  next_key_id : Nat
deriving DecidableEq, Repr

/-- The funder account registered with the SDK (`fundingAccountDetails`). -/
structure Funder where
  accountId : String
  secretKey : String
  rootEntropy : Option String := none
deriving DecidableEq, Repr

/-- A keystore: ordered list of `(networkId, accountId, keyPair)` entries,
most recent first.  Mirrors the ledger client `KeyStore` boundary. -/
abbrev KeyStore : Type := List (String × String × KeyPair)

/-- `keyStore.setKey(networkId, accountId, keyPair)`: record the pair. -/
def setKey (ks : KeyStore) (networkId accountId : String) (kp : KeyPair) : KeyStore :=
  (networkId, accountId, kp) :: ks

/-- Look up the most recently set key for `(networkId, accountId)`. -/
def getKey (ks : KeyStore) (networkId accountId : String) : Option KeyPair :=
  (List.find? (fun e => e.1 == networkId && e.2.1 == accountId) ks).map (fun e => e.2.2)

/-- The process-wide environment returned by `getEnv` in `keypom.ts`,
together with the module-level mutable bindings of that file. -/
structure Env where
  near : Bool
  networkId : String := "testnet"
  gas : String := "200000000000000"
  gas300 : String := "300000000000000"
  attachedGas : String := "100000000000000"
  contractId : String := "v1-3.keypom.testnet"
  receiverId : String := "v1-3.keypom.testnet"
  fundingAccount : Option String := none
  fundingAccountDetails : Option Funder := none
  fundingKey : Option KeyPair := none
  keyStore : KeyStore := []

/-- `getAccount({account, wallet})` from `keypom.ts`: the explicit account,
else the wallet, else the funding account. -/
def getAccount (env : Env) (account wallet : Option String) : Option String :=
  (account.orElse fun _ => wallet).orElse fun _ => env.fundingAccount

/-- Structured contract-call arguments (the JSON payloads the SDK builds). -/
inductive FcArgs where
  | addKeysArgs (drop_id : String) (public_keys : List String)
      (passwords_per_use : Option (List (List String)))
  | ftTransferCallArgs (receiver_id : String) (amount : Nat) (msg : String)
  | nftTransferCallArgs (receiver_id : String) (token_id : String) (msg : String)
  | deleteKeysArgs (drop_id : String) (public_keys : List String)
  | refundAssetsArgs (drop_id : String)
  | withdrawFromBalanceArgs
  | createAccountAndClaimArgs (new_account_id : String) (new_public_key : String)
  | claimArgs (account_id : String)
  | rawArgs (json : String)
deriving DecidableEq, Repr

/-- One `FunctionCall` action of a transaction. -/
structure FcAction where
  methodName : String
  args : FcArgs
  gas : String
  deposit : Option Nat := none
deriving DecidableEq, Repr

/-- A transaction: a receiver and an ordered list of actions. -/
structure Tx where
  receiverId : String
  actions : List FcAction
deriving DecidableEq, Repr

/-- A network interaction performed by an SDK operation: either a read-only
view call, or a dispatch of a transaction batch through `execute`. -/
inductive NetCall where
  | view (contractId : String) (methodName : String)
  | dispatch (txs : List Tx)
deriving DecidableEq, Repr

/-- The external chain state the view calls read from. -/
structure Chain where
  dropInfo : String → Option Drop
  userBalance : String → Nat

/-- Return value of `addKeys` (the `responses` are network results and live
in the `NetCall` log instead). -/
structure CreateOrAddReturn where
  dropId : String
  keys : Option (List KeyPair)
deriving DecidableEq, Repr

/-- Parameters of `addKeys` (`AddKeyParams`); the password fields exist only
in the newer variant and are ignored by the older one. -/
structure AddKeyParams where
  account : Option String := none
  wallet : Option String := none
  dropId : Option String := none
  drop : Option Drop := none
  numKeys : Nat := 0
  publicKeys : Option (List String) := none
  nftTokenIds : Option (List String) := none
  rootEntropy : Option String := none
  basePassword : Option String := none
  passwordProtectedUses : Option (List Nat) := none
  useBalance : Bool := false

/-- Parameters of `deleteKeys` (`DeleteKeyParams`); a single public key is
normalized to a one-element list by the source, so the embedding takes the
list directly. -/
structure DeleteKeyParams where
  account : Option String := none
  wallet : Option String := none
  publicKeys : List String
  dropId : String
  withdrawBalance : Bool := false

/-- Parameters of `claim`. -/
structure ClaimParams where
  secretKey : String
  accountId : Option String := none
  newAccountId : Option String := none
  newPublicKey : Option String := none

/-- Modelled from the spec: `KeyPair.fromString` / `getPubFromSecret`
(seed-phrase/key-pair cryptography is out of scope, "treated as a black-box
key derivation function", spec section 1).  The public key is a fixed
injective function of the secret key. -/
def keyPairFromString (secretKey : String) : KeyPair :=
  { publicKey := "ed25519:pub<" ++ secretKey ++ ">", secretKey := secretKey }

/-- Modelled from the spec: the deterministic branch of key derivation
(`generateKeys` in `keypom-utils.ts`, which is not part of the snapshot).
Spec section 4.1: "each key seed is a deterministic function of
`rootEntropy` and that key meta-entropy string". -/
def deriveKeyPair (rootEntropy meta : String) : KeyPair :=
  keyPairFromString ("ed25519:seed<" ++ rootEntropy ++ "|" ++ meta ++ ">")

/-- Modelled from the spec: `generateKeys` (`keypom-utils.ts`, not in the
snapshot).  Spec section 4.1: with `rootEntropy`, key `i` is derived from
`rootEntropy` and `metaEntropy[i]`; without it, each key "is drawn from a
cryptographically secure random source", modelled as an injected stream
`rng` of fresh keypairs. -/
def generateKeys (rng : Nat → KeyPair) (numKeys : Nat)
    (rootEntropy : Option String) (metaEntropy : Option (List String)) : List KeyPair :=
  match rootEntropy with
  | some re =>
      (List.range numKeys).map fun i => deriveKeyPair re ((metaEntropy.getD []).getD i "")
  | none => (List.range numKeys).map rng

/-- Modelled from the spec: `generatePerUsePasswords` (`keypom-utils.ts`,
not in the snapshot).  "Each use will have a different, unique password
generated via double hashing the base password + public key + key use";
the double hash is abstracted as an injective tagging function. -/
def generatePerUsePasswords (publicKeys : List String) (basePassword : String)
    (uses : List Nat) : List (List String) :=
  publicKeys.map fun pk =>
    uses.map fun u => "h2<" ++ basePassword ++ pk ++ Nat.repr u ++ ">"

/-- Per-key storage cost baseline used by the estimator model (yoctoNEAR). -/
def keyStorageCost : Nat := 10 ^ 22

/-- Conservative gas-to-deposit buffer for function-call drops. -/
def gasBuffer : Nat := 2

/-- `parseNearAmount` of 0.2 NEAR, in yoctoNEAR. -/
def storagePointTwo : Nat := 2 * 10 ^ 23

/-- Modelled from the spec: `estimateRequiredDeposit` (`keypom-utils.ts`,
not in the snapshot).  Spec section 4.2: accounts for per-key storage cost,
deposit-per-use times uses times keys, a gas-to-deposit safety margin for
function-call drops, and function-call attached deposits; over `Nat` the
result is exact, never rounded down. -/
def estimateRequiredDeposit (depositPerUse numKeys usesPerKey attachedGas storage : Nat)
    (ftData : FTData) (fcData : Option FCData) : Nat :=
  let fcCost : Nat :=
    match fcData with
    | some fc =>
        attachedGas * gasBuffer * numKeys * usesPerKey +
          (fc.methods.map (fun ms => (ms.map (·.attachedDeposit)).sum)).sum * numKeys
    | none => 0
  let ftRegistration : Nat := if ftData.contract_id.isSome then keyStorageCost else 0
  storage + numKeys * keyStorageCost + depositPerUse * numKeys * usesPerKey
    + fcCost + ftRegistration

/-- Modelled from the spec: `ftTransferCall` with `returnTransaction` set
(`keypom-utils.ts`, not in the snapshot).  Spec section 6: `ft_transfer_call`
on the token contract, "carrying the drop id as an opaque `msg` string for
attribution"; the 1 yoctoNEAR deposit is the standard transfer-call deposit. -/
def ftTransferCallTx (ftContractId keypomContractId : String) (amount : Nat)
    (dropId : String) (gas : String) : Tx :=
  { receiverId := ftContractId,
    actions := [{ methodName := "ft_transfer_call",
                  args := FcArgs.ftTransferCallArgs keypomContractId amount dropId,
                  gas := gas,
                  deposit := some 1 }] }

/-- Modelled from the spec: `nftTransferCall` returning its transactions
(`keypom-utils.ts`, not in the snapshot).  One `nft_transfer_call` per token
id, each carrying the drop id as the opaque `msg`. -/
def nftTransferCallTxs (nftContractId keypomContractId : String)
    (tokenIds : List String) (dropId : String) (gas : String) : List Tx :=
  tokenIds.map fun tid =>
    { receiverId := nftContractId,
      actions := [{ methodName := "nft_transfer_call",
                    args := FcArgs.nftTransferCallArgs keypomContractId tid dropId,
                    gas := gas,
                    deposit := some 1 }] }

/-- `key2str` from `keypom-utils.ts`: public keys are already strings here. -/
def key2str (k : String) : String := k

/-- The key-resolution block shared verbatim by both `addKeys` variants
(lines 174-197 of `keys.ts`, lines 178-201 of `part_005`): when no
`publicKeys` are passed, generate `numKeys` keypairs, deterministically
from the root entropy and the meta-entropy strings
`"{drop_id}_{next_key_id + i}"` when entropy is available, randomly
otherwise.  Returns the generated keys (if any) and the public keys. -/
def resolveKeys (env : Env) (rng : Nat → KeyPair) (p : AddKeyParams) (d : Drop) :
    Option (List KeyPair) × List String :=
  match p.publicKeys with
  | some pks => (none, pks)
  | none =>
    let rootEntropyUsed :=
      p.rootEntropy.orElse fun _ => env.fundingAccountDetails.bind (·.rootEntropy)
    match rootEntropyUsed with
    | some re =>
      let nonceDropIdMeta :=
        (List.range p.numKeys).map fun i =>
          d.drop_id ++ "_" ++ Nat.repr (d.next_key_id + i)
      let ks := generateKeys rng p.numKeys (some re) (some nonceDropIdMeta)
      (some ks, ks.map (·.publicKey))
    | none =>
      let ks := generateKeys rng p.numKeys none none
      (some ks, ks.map (·.publicKey))

/-- The transactions contained in the dispatch calls of a network log, in
order; "no transaction was dispatched" is `dispatchedTxs log = []`. -/
def dispatchedTxs (log : List NetCall) : List Tx :=
  (log.map fun c =>
    match c with
    | NetCall.dispatch txs => txs
    | NetCall.view _ _ => []).flatten

/-- No transaction batch was sent to the network. -/
def noDispatch (log : List NetCall) : Prop := dispatchedTxs log = []

namespace KeysTs

/-- The body of the older `addKeys` (`src/lib/keys.ts`) from the point where
the drop information is in hand; `log0` is the network-call log accumulated
by the preceding drop-information fetch. -/
def addKeysWithDrop (env : Env) (chain : Chain) (rng : Nat → KeyPair)
    (p : AddKeyParams) (d : Drop) (log0 : List NetCall) :
    Except String CreateOrAddReturn × List NetCall :=
  let account := getAccount env p.account p.wallet
  let generated := resolveKeys env rng p d
  let keys := generated.1
  let publicKeys := generated.2
  let numKeys := publicKeys.length
  let ftData := d.ft.getD {}
  let requiredDeposit :=
    estimateRequiredDeposit d.deposit_per_use numKeys d.config.uses_per_key
      d.required_gas storagePointTwo ftData none
  if p.useBalance = true ∧ chain.userBalance (account.getD "") < requiredDeposit then
    (Except.error "Insufficient balance on Keypom to create drop. Use attached deposit instead.",
     log0 ++ [NetCall.view env.contractId "get_user_balance"])
  else
    let hasBalance := p.useBalance
    let balLog : List NetCall :=
      if p.useBalance then [NetCall.view env.contractId "get_user_balance"] else []
    let tx0 : Tx :=
      { receiverId := env.receiverId,
        actions := [{ methodName := "add_keys",
                      args := FcArgs.addKeysArgs d.drop_id publicKeys none,
                      gas := env.gas,
                      deposit := if hasBalance then none else some requiredDeposit }] }
    let ftTxs : List Tx :=
      match ftData.contract_id with
      | some ftc =>
          [ftTransferCallTx ftc env.contractId
            ((ftData.balance_per_use.getD 0) * (numKeys - d.registered_uses))
            d.drop_id env.gas300]
      | none => []
    let transactions := [tx0] ++ ftTxs
    -- the NFT transfers happen in a second `execute`, after the first one
    let nftLog : List NetCall :=
      match p.nftTokenIds with
      | some tids =>
        if 0 < tids.length then
          [NetCall.dispatch
            (nftTransferCallTxs ((d.nft.getD {}).contract_id.getD "") env.contractId
              tids d.drop_id env.gas300)]
        else []
      | none => []
    (Except.ok { dropId := d.drop_id, keys := keys },
     log0 ++ balLog ++ [NetCall.dispatch transactions] ++ nftLog)

/-- `addKeys` from `src/lib/keys.ts` (the older variant).  The random source
for key generation is passed in as `rng`; the network calls the operation
makes are returned next to the result, in order.  The drop information is
the passed `drop` object, or is fetched by the `get_drop_information` view
call. -/
def addKeys (env : Env) (chain : Chain) (rng : Nat → KeyPair) (p : AddKeyParams) :
    Except String CreateOrAddReturn × List NetCall :=
  if env.near = false then
    (Except.error "Keypom SDK is not initialized. Please call `initKeypom`.", [])
  else if p.drop.isNone && p.dropId.isNone then
    (Except.error "Either a dropId or drop object must be passed in.", [])
  else if (p.publicKeys.getD []).isEmpty && p.numKeys == 0 then
    (Except.error "Either pass in publicKeys or set numKeys to a positive non-zero value.", [])
  else
    match p.drop with
    | some d => addKeysWithDrop env chain rng p d []
    | none =>
      match chain.dropInfo (p.dropId.getD "") with
      | some d =>
          addKeysWithDrop env chain rng p d
            [NetCall.view env.contractId "get_drop_information"]
      | none =>
          (Except.error "Drop could not be fetched for the given dropId.",
           [NetCall.view env.contractId "get_drop_information"])

end KeysTs

namespace Part005

/-- The body of the newer `addKeys` (`unnamed/part_005`) from the point
where the drop information is in hand; `log0` is the network-call log
accumulated by the preceding drop-information fetch.  Differences from the
older variant: a drop ownership check, per-use passwords, the function-call
descriptor forwarded to the estimator, the FT amount
`balance_per_use * numKeys * uses_per_key`, and the NFT transfers batched
into the same `execute` (at most 2 tokens).  The source reads
`nftData.contractId` off the snake_case drop object; modelled as the NFT
contract id of the drop. -/
def addKeysWithDrop (env : Env) (chain : Chain) (rng : Nat → KeyPair)
    (p : AddKeyParams) (d : Drop) (log0 : List NetCall) :
    Except String CreateOrAddReturn × List NetCall :=
  let account := getAccount env p.account p.wallet
  if d.owner_id ≠ account.getD "" then
    (Except.error "You are not the owner of this drop. You cannot add keys to it.", log0)
  else
    let generated := resolveKeys env rng p d
    let keys := generated.1
    let publicKeys := generated.2
    let numKeys := publicKeys.length
    if p.basePassword.isSome ∧ 50 < numKeys then
      (Except.error "Cannot add 50 keys at once with passwords", log0)
    else
      let passwords : Option (List (List String)) :=
        match p.basePassword with
        | some bp =>
            some (generatePerUsePasswords publicKeys bp
              (p.passwordProtectedUses.getD
                ((List.range d.config.uses_per_key).map (· + 1))))
        | none => none
      let ftData := d.ft.getD {}
      let requiredDeposit :=
        estimateRequiredDeposit d.deposit_per_use numKeys d.config.uses_per_key
          d.required_gas storagePointTwo ftData d.fc
      if p.useBalance = true ∧ chain.userBalance (account.getD "") < requiredDeposit then
        (Except.error "Insufficient balance on Keypom to create drop. Use attached deposit instead.",
         log0 ++ [NetCall.view env.contractId "get_user_balance"])
      else
        let hasBalance := p.useBalance
        let balLog : List NetCall :=
          if p.useBalance then [NetCall.view env.contractId "get_user_balance"] else []
        let tx0 : Tx :=
          { receiverId := env.receiverId,
            actions := [{ methodName := "add_keys",
                          args := FcArgs.addKeysArgs d.drop_id publicKeys passwords,
                          gas := env.gas,
                          deposit := if hasBalance then none else some requiredDeposit }] }
        let ftTxs : List Tx :=
          match ftData.contract_id with
          | some ftc =>
              [ftTransferCallTx ftc env.contractId
                ((ftData.balance_per_use.getD 0) * numKeys * d.config.uses_per_key)
                d.drop_id env.gas300]
          | none => []
        match p.nftTokenIds with
        | some tids =>
          if 0 < tids.length then
            if 2 < tids.length then
              (Except.error "You can only automatically register 2 NFTs with `createDrop`. If you need to register more NFTs you can use the method `nftTransferCall` after you create the drop.",
               log0 ++ balLog)
            else
              (Except.ok { dropId := d.drop_id, keys := keys },
               log0 ++ balLog ++
                 [NetCall.dispatch ([tx0] ++ ftTxs ++
                   nftTransferCallTxs ((d.nft.getD {}).contract_id.getD "")
                     env.contractId tids d.drop_id env.gas300)])
          else
            (Except.ok { dropId := d.drop_id, keys := keys },
             log0 ++ balLog ++ [NetCall.dispatch ([tx0] ++ ftTxs)])
        | none =>
          (Except.ok { dropId := d.drop_id, keys := keys },
           log0 ++ balLog ++ [NetCall.dispatch ([tx0] ++ ftTxs)])

/-- `addKeys` from `unnamed/part_005` (the newer variant with asserts).
The validity asserts for the account object cannot fail here because
accounts are embedded as ids. -/
def addKeys (env : Env) (chain : Chain) (rng : Nat → KeyPair) (p : AddKeyParams) :
    Except String CreateOrAddReturn × List NetCall :=
  if env.near = false then
    (Except.error "Keypom SDK is not initialized. Please call `initKeypom`.", [])
  else if p.drop.isNone && p.dropId.isNone then
    (Except.error "Either a dropId or drop object must be passed in.", [])
  else if p.numKeys == 0 && (p.publicKeys.getD []).isEmpty then
    (Except.error "Either pass in publicKeys or set numKeys to a positive non-zero value.", [])
  else if ¬(env.receiverId = "v1-3.keypom.near" ∨ env.receiverId = "v1-3.keypom.testnet") then
    (Except.error "Only the latest Keypom contract can be used to call this methods. Please update the contract to: v1-3.keypom.near or v1-3.keypom.testnet", [])
  else
    match p.drop with
    | some d => addKeysWithDrop env chain rng p d []
    | none =>
      match chain.dropInfo (p.dropId.getD "") with
      | some d =>
          addKeysWithDrop env chain rng p d
            [NetCall.view env.contractId "get_drop_information"]
      | none =>
          (Except.error "Drop could not be fetched for the given dropId.",
           [NetCall.view env.contractId "get_drop_information"])

/-- `deleteKeys` from `unnamed/part_005`. -/
def deleteKeys (env : Env) (chain : Chain) (p : DeleteKeyParams) :
    Except String Unit × List NetCall :=
  if ¬(env.receiverId = "v1-3.keypom.near" ∨ env.receiverId = "v1-3.keypom.testnet") then
    (Except.error "Only the latest Keypom contract can be used to call this methods. Please update the contract to: v1-3.keypom.near or v1-3.keypom.testnet", [])
  else
    match chain.dropInfo p.dropId with
    | none =>
        (Except.error "Drop could not be fetched for the given dropId.",
         [NetCall.view env.contractId "get_drop_information"])
    | some d =>
      let log0 : List NetCall := [NetCall.view env.contractId "get_drop_information"]
      let account := getAccount env p.account p.wallet
      if d.owner_id ≠ account.getD "" then
        (Except.error "Only the owner of the drop can delete keys.", log0)
      else
        let refundActions : List FcAction :=
          if (d.ft.isSome || d.nft.isSome) && decide (0 < d.registered_uses) then
            [{ methodName := "refund_assets",
               args := FcArgs.refundAssetsArgs d.drop_id,
               gas := "100000000000000" }]
          else []
        let deleteAction : FcAction :=
          { methodName := "delete_keys",
            args := FcArgs.deleteKeysArgs d.drop_id (p.publicKeys.map key2str),
            gas := "100000000000000" }
        let withdrawActions : List FcAction :=
          if p.withdrawBalance then
            [{ methodName := "withdraw_from_balance",
               args := FcArgs.withdrawFromBalanceArgs,
               gas := "100000000000000" }]
          else []
        let transactions : List Tx :=
          [{ receiverId := env.receiverId,
             actions := refundActions ++ [deleteAction] ++ withdrawActions }]
        (Except.ok (), log0 ++ [NetCall.dispatch transactions])

end Part005

/-- `claim` from `src/lib/claims.ts`.  Returns the result, the keystore
after the call, and the network calls made. -/
def claim (env : Env) (p : ClaimParams) :
    Except String Unit × KeyStore × List NetCall :=
  let keyPair := keyPairFromString p.secretKey
  let ks1 := setKey env.keyStore env.networkId env.contractId keyPair
  if p.newAccountId.isSome && p.newPublicKey.isNone then
    (Except.error "If creating a new account, a newPublicKey must be passed in.", ks1, [])
  else if p.newAccountId.isNone && p.accountId.isNone then
    (Except.error "Either an accountId or newAccountId must be passed in.", ks1, [])
  else
    let action : FcAction :=
      match p.newAccountId with
      | some na =>
          { methodName := "create_account_and_claim",
            args := FcArgs.createAccountAndClaimArgs na (p.newPublicKey.getD ""),
            gas := env.attachedGas }
      | none =>
          { methodName := "claim",
            args := FcArgs.claimArgs (p.accountId.getD ""),
            gas := env.attachedGas }
    (Except.ok (), ks1,
     [NetCall.dispatch [{ receiverId := env.receiverId, actions := [action] }]])

/-- `updateKeypomContractId` from `src/lib/keypom.ts`.  The source checks
`near`, then destructures a `funder` binding (not declared in that module;
modelled as the session funder details, whose absence is the reference
error) and re-derives the funding credentials.  No statement of the body
assigns `keypomContractId` to the module-level `contractId` or
`receiverId`. -/
def updateKeypomContractId (env : Env) (keypomContractId : String) : Except String Env :=
  if env.near = false then
    Except.error "You must initialize the SDK via `initKeypom` before updating the funder account."
  else
    match env.fundingAccountDetails with
    | none => Except.error "funder is not defined"
    | some funder =>
      let fundingKey := keyPairFromString funder.secretKey
      Except.ok { env with
        fundingKey := some fundingKey,
        keyStore := setKey env.keyStore env.networkId funder.accountId fundingKey,
        fundingAccount := some funder.accountId }

/-- Execution failure payload, as in `FinalExecutionOutcome`. -/
structure ExecutionFailure where
  error_message : String
  error_type : String
deriving DecidableEq, Repr

/-- Status of a transaction or receipt outcome. -/
inductive ExecStatus where
  | Failure (f : ExecutionFailure)
  | SuccessValue (v : String)
deriving DecidableEq, Repr

/-- One execution outcome record. -/
structure ExecutionOutcome where
  logs : List String
  receipt_ids : List String
  gas_burnt : Nat
  status : ExecStatus
deriving DecidableEq, Repr

/-- An outcome labelled with its id. -/
structure IdOutcome where
  id : String
  outcome : ExecutionOutcome
deriving DecidableEq, Repr

/-- `FinalExecutionOutcome` from the ledger client (the fields the sentinel
populates). -/
structure FinalExecutionOutcome where
  status : ExecStatus
  transaction_outcome : IdOutcome
  receipts_outcome : List IdOutcome
deriving DecidableEq, Repr

/-- `FAILED_EXECUTION_OUTCOME` from `src/lib/selector/core/types.ts`: the
fixed sentinel returned for trial-policy violations. -/
def FAILED_EXECUTION_OUTCOME : FinalExecutionOutcome :=
  { status := ExecStatus.Failure
      { error_message := "Invalid Trial Action", error_type := "keypom-trial-error" },
    transaction_outcome :=
      { id := "",
        outcome :=
          { logs := [], receipt_ids := [], gas_burnt := 0,
            status := ExecStatus.Failure
              { error_message := "Invalid Trial Action",
                error_type := "keypom-trial-error" } } },
    receipts_outcome :=
      [{ id := "",
         outcome :=
           { logs := [], receipt_ids := [], gas_burnt := 0,
             status := ExecStatus.Failure
               { error_message := "Invalid Trial Action",
                 error_type := "keypom-trial-error" } } }] }

/-- One entry of a trial allow-list: a `(contractId, methodName)`
pair with an optional per-call deposit ceiling (spec section 4.5). -/
structure TrialRule where
  contractId : String
  methodName : String
  maxDeposit : Option Nat := none
deriving DecidableEq, Repr

/-- A trial policy: the allow-list of callable pairs. -/
structure TrialPolicy where
  allowList : List TrialRule
deriving DecidableEq, Repr

/-- The generic success outcome standing for the network
result (its exact content is decided by the chain, not by the SDK). -/
def SUCCESS_EXECUTION_OUTCOME : FinalExecutionOutcome :=
  { status := ExecStatus.SuccessValue "",
    transaction_outcome :=
      { id := "",
        outcome :=
          { logs := [], receipt_ids := [], gas_burnt := 0,
            status := ExecStatus.SuccessValue "" } },
    receipts_outcome := [] }

/-- Modelled from the spec: `trialCallMethod`
(`src/lib/trial-accounts/trial-active.ts`, not in the snapshot).  Spec
sections 4.5 and 7: "Any call to `trialCallMethod` checks the requested
`(contractId, methodName, deposit)` against the policy; non-matching calls
produce a synthetic failed-execution result (fixed sentinel outcome, never
forwarded to the network)". -/
def trialCallMethod (policy : TrialPolicy) (contractId methodName : String)
    (args : String) (attachedDeposit : Nat) (attachedGas : String) :
    FinalExecutionOutcome × List NetCall :=
  match policy.allowList.find?
      (fun r => r.contractId == contractId && r.methodName == methodName) with
  | none => (FAILED_EXECUTION_OUTCOME, [])
  | some r =>
    match r.maxDeposit with
    | some ceiling =>
      if ceiling < attachedDeposit then (FAILED_EXECUTION_OUTCOME, [])
      else
        (SUCCESS_EXECUTION_OUTCOME,
         [NetCall.dispatch
           [{ receiverId := contractId,
              actions := [{ methodName := methodName,
                            args := FcArgs.rawArgs args,
                            gas := attachedGas,
                            deposit := some attachedDeposit }] }]])
    | none =>
        (SUCCESS_EXECUTION_OUTCOME,
         [NetCall.dispatch
           [{ receiverId := contractId,
              actions := [{ methodName := methodName,
                            args := FcArgs.rawArgs args,
                            gas := attachedGas,
                            deposit := some attachedDeposit }] }]])

/-- The (amount, msg) pairs of all `ft_transfer_call` actions in a list of
transactions. -/
def ftTransfers (txs : List Tx) : List (Nat × String) :=
  (txs.map fun tx => tx.actions.filterMap fun a =>
    match a.args with
    | FcArgs.ftTransferCallArgs _ amt msg => some (amt, msg)
    | _ => none).flatten

/-- A deterministic stand-in for the random source, for concrete runs. -/
def rngDemo : Nat → KeyPair := fun i => keyPairFromString ("ed25519:rand" ++ Nat.repr i)

/-- A concrete fungible-token drop: 2 tokens per use, 3 uses per key. -/
def ftDrop : Drop :=
  { drop_id := "12345", owner_id := "funder.testnet", registered_uses := 0,
    required_gas := 100000000000000, deposit_per_use := 10,
    config := { uses_per_key := 3 },
    ft := some { contract_id := some "ft.keypom.testnet", balance_per_use := some 2 },
    next_key_id := 0 }

/-- An initialized environment whose funding account owns `ftDrop`. -/
def envDemo : Env :=
  { near := true, fundingAccount := some "funder.testnet",
    fundingAccountDetails := some { accountId := "funder.testnet", secretKey := "sk-funder" } }

/-- A chain with `ftDrop` registered and zero Keypom balances. -/
def chainDemo : Chain :=
  { dropInfo := fun did => if did = "12345" then some ftDrop else none,
    userBalance := fun _ => 0 }

/-- C9: for every invocation of `claim`, the keypair derived from
`secretKey` is stored into the keystore under `(networkId, contractId)`
before parameter validation runs, so the keystore is mutated even when the
call then throws a precondition error (missing `newPublicKey`, or neither
`accountId` nor `newAccountId`). -/
theorem C9_claim_keystore_mutated_before_validation (env : Env) (p : ClaimParams) :
    getKey (claim env p).2.1 env.networkId env.contractId
        = some (keyPairFromString p.secretKey) ∧
    (p.newAccountId.isSome = true → p.newPublicKey = none →
      (claim env p).1 = Except.error "If creating a new account, a newPublicKey must be passed in.") ∧
    (p.newAccountId = none → p.accountId = none →
      (claim env p).1 = Except.error "Either an accountId or newAccountId must be passed in.") := by
  refine ⟨?_, ?_, ?_⟩
  · unfold claim getKey setKey
    split
    · simp [List.find?]
    · split
      · simp [List.find?]
      · simp [List.find?]
  · intro h1 h2
    unfold claim
    simp [h1, h2]
  · intro h1 h2
    unfold claim
    simp [h1, h2]

/-- C9 witness: at a concrete invalid invocation (a `newAccountId` but no
`newPublicKey`) the keystore nevertheless holds the derived keypair and the
call throws. -/
theorem C9_witness :
    getKey (claim envDemo { secretKey := "sk-link", newAccountId := some "new.testnet" }).2.1
        envDemo.networkId envDemo.contractId = some (keyPairFromString "sk-link") ∧
    (claim envDemo { secretKey := "sk-link", newAccountId := some "new.testnet" }).1
        = Except.error "If creating a new account, a newPublicKey must be passed in." := by
  obtain ⟨h1, h2, _⟩ :=
    C9_claim_keystore_mutated_before_validation envDemo
      { secretKey := "sk-link", newAccountId := some "new.testnet" }
  exact ⟨h1, h2 rfl rfl⟩

/-- C10: `updateKeypomContractId` leaves the process-wide `contractId` and
`receiverId` unchanged: it never assigns the passed contract id to them. -/
theorem C10_updateKeypomContractId_frame (env : Env) (k : String) (env2 : Env)
    (h : updateKeypomContractId env k = Except.ok env2) :
    env2.contractId = env.contractId ∧ env2.receiverId = env.receiverId := by
  unfold updateKeypomContractId at h
  split at h
  · exact absurd h (by simp)
  · cases hf : env.fundingAccountDetails with
    | none => rw [hf] at h; exact absurd h (by simp)
    | some funder =>
        rw [hf] at h
        simp only [Except.ok.injEq] at h
        subst h
        exact ⟨rfl, rfl⟩

/-- The environment produced by a concrete successful `updateKeypomContractId`. -/
def envDemoAfterUpdate : Env :=
  { envDemo with
    fundingKey := some (keyPairFromString "sk-funder"),
    keyStore := setKey envDemo.keyStore envDemo.networkId "funder.testnet"
      (keyPairFromString "sk-funder"),
    fundingAccount := some "funder.testnet" }

/-- C10 witness: a concrete update with a fresh contract id leaves the
configured contract and receiver untouched. -/
theorem C10_witness :
    envDemoAfterUpdate.contractId = envDemo.contractId ∧
    envDemoAfterUpdate.receiverId = envDemo.receiverId :=
  C10_updateKeypomContractId_frame envDemo "v2.keypom.testnet" envDemoAfterUpdate rfl

/-- C7: every successful `claim` dispatches exactly one transaction to the
Keypom receiver with a single FunctionCall action — `create_account_and_claim`
with `{new_account_id, new_public_key}` when `newAccountId` is given,
otherwise `claim` with `{account_id}` — and it throws before dispatch when
`newAccountId` comes without `newPublicKey` or when neither `accountId` nor
`newAccountId` is given. -/
theorem C7_claim_single_transaction (env : Env) (p : ClaimParams) :
    (∀ na npk, p.newAccountId = some na → p.newPublicKey = some npk →
      claim env p =
        (Except.ok (),
         setKey env.keyStore env.networkId env.contractId (keyPairFromString p.secretKey),
         [NetCall.dispatch
           [{ receiverId := env.receiverId,
              actions := [{ methodName := "create_account_and_claim",
                            args := FcArgs.createAccountAndClaimArgs na npk,
                            gas := env.attachedGas, deposit := none }] }]])) ∧
    (∀ aid, p.newAccountId = none → p.accountId = some aid →
      claim env p =
        (Except.ok (),
         setKey env.keyStore env.networkId env.contractId (keyPairFromString p.secretKey),
         [NetCall.dispatch
           [{ receiverId := env.receiverId,
              actions := [{ methodName := "claim",
                            args := FcArgs.claimArgs aid,
                            gas := env.attachedGas, deposit := none }] }]])) ∧
    (p.newAccountId.isSome = true → p.newPublicKey = none →
      (claim env p).1 = Except.error "If creating a new account, a newPublicKey must be passed in." ∧
      noDispatch (claim env p).2.2) ∧
    (p.newAccountId = none → p.accountId = none →
      (claim env p).1 = Except.error "Either an accountId or newAccountId must be passed in." ∧
      noDispatch (claim env p).2.2) := by
  refine ⟨?_, ?_, ?_, ?_⟩
  · intro na npk h1 h2
    unfold claim
    simp [h1, h2, setKey]
  · intro aid h1 h2
    unfold claim
    simp [h1, h2, setKey]
  · intro h1 h2
    unfold claim
    simp [h1, h2, noDispatch, dispatchedTxs]
  · intro h1 h2
    unfold claim
    simp [h1, h2, noDispatch, dispatchedTxs]

/-- C7 witness: a concrete claim to an existing account dispatches the single
`claim` FunctionCall, and a concrete claim with `newAccountId` but no
`newPublicKey` throws with nothing dispatched. -/
theorem C7_witness :
    claim envDemo { secretKey := "sk-link", accountId := some "alice.testnet" } =
      (Except.ok (),
       setKey envDemo.keyStore envDemo.networkId envDemo.contractId (keyPairFromString "sk-link"),
       [NetCall.dispatch
         [{ receiverId := envDemo.receiverId,
            actions := [{ methodName := "claim",
                          args := FcArgs.claimArgs "alice.testnet",
                          gas := envDemo.attachedGas, deposit := none }] }]]) ∧
    (claim envDemo { secretKey := "sk-link", newAccountId := some "new.testnet" }).1
        = Except.error "If creating a new account, a newPublicKey must be passed in." := by
  refine ⟨?_, ?_⟩
  · exact (C7_claim_single_transaction envDemo
      { secretKey := "sk-link", accountId := some "alice.testnet" }).2.1 "alice.testnet" rfl rfl
  · exact ((C7_claim_single_transaction envDemo
      { secretKey := "sk-link", newAccountId := some "new.testnet" }).2.2.1 rfl rfl).1

/-- C8: a `trialCallMethod` invocation whose `(contractId, methodName)` pair
is absent from the trial policy allow-list returns the fixed sentinel
`FAILED_EXECUTION_OUTCOME` — whose status is a Failure with error type
`keypom-trial-error` — and performs no network call at all. -/
theorem C8_trial_disallowed_sentinel (policy : TrialPolicy) (c m args : String)
    (dep : Nat) (g : String)
    (h : ∀ r ∈ policy.allowList, ¬(r.contractId = c ∧ r.methodName = m)) :
    trialCallMethod policy c m args dep g = (FAILED_EXECUTION_OUTCOME, []) ∧
    FAILED_EXECUTION_OUTCOME.status =
      ExecStatus.Failure
        { error_message := "Invalid Trial Action", error_type := "keypom-trial-error" } := by
  constructor
  · unfold trialCallMethod
    have hfind : policy.allowList.find?
        (fun r => r.contractId == c && r.methodName == m) = none := by
      rw [List.find?_eq_none]
      intro r hr
      have := h r hr
      simp only [Bool.and_eq_true, beq_iff_eq]
      intro hc
      exact this hc
    rw [hfind]
  · rfl

/-- A concrete trial policy allowing a single `(contract, method)` pair. -/
def policyDemo : TrialPolicy :=
  { allowList := [{ contractId := "guestbook.testnet", methodName := "add_message",
                    maxDeposit := some 1000 }] }

/-- C8 witness: a concrete disallowed call gets the sentinel and no network
interaction. -/
theorem C8_witness :
    trialCallMethod policyDemo "evil.testnet" "steal" "{}" 0 "30000000000000"
      = (FAILED_EXECUTION_OUTCOME, []) :=
  (C8_trial_disallowed_sentinel policyDemo "evil.testnet" "steal" "{}" 0 "30000000000000"
    (by decide)).1

/-- C6: when the signing account is not the drop owner, `deleteKeys` fails
with the ownership error and dispatches zero transactions. -/
theorem C6_deleteKeys_non_owner (env : Env) (chain : Chain) (p : DeleteKeyParams) (d : Drop)
    (hrecv : env.receiverId = "v1-3.keypom.near" ∨ env.receiverId = "v1-3.keypom.testnet")
    (hdrop : chain.dropInfo p.dropId = some d)
    (howner : d.owner_id ≠ (getAccount env p.account p.wallet).getD "") :
    (Part005.deleteKeys env chain p).1
        = Except.error "Only the owner of the drop can delete keys." ∧
    noDispatch (Part005.deleteKeys env chain p).2 := by
  unfold Part005.deleteKeys
  rw [if_neg (by simp [hrecv] : ¬¬(env.receiverId = "v1-3.keypom.near" ∨
    env.receiverId = "v1-3.keypom.testnet"))]
  rw [hdrop]
  simp only [if_pos howner]
  exact ⟨trivial, by simp [noDispatch, dispatchedTxs]⟩

/-- C6 witness: a concrete non-owner deletion attempt on `ftDrop` fails with
the ownership error and no dispatch. -/
theorem C6_witness :
    (Part005.deleteKeys envDemo chainDemo
        { account := some "mallory.testnet", publicKeys := ["pk1"], dropId := "12345" }).1
      = Except.error "Only the owner of the drop can delete keys." ∧
    noDispatch (Part005.deleteKeys envDemo chainDemo
        { account := some "mallory.testnet", publicKeys := ["pk1"], dropId := "12345" }).2 :=
  C6_deleteKeys_non_owner envDemo chainDemo
    { account := some "mallory.testnet", publicKeys := ["pk1"], dropId := "12345" } ftDrop
    (Or.inr rfl) rfl (by decide)

/-- C5: when the SDK is uninitialized, or neither a `dropId` nor a `drop`
object is passed, or neither `publicKeys` nor a positive `numKeys` is
passed, both `addKeys` variants raise a precondition error synchronously,
before any network call and before any transaction is built (the network
log is empty). -/
theorem C5_addKeys_precondition_errors (env : Env) (chain : Chain)
    (rng : Nat → KeyPair) (p : AddKeyParams)
    (h : env.near = false ∨ (p.drop = none ∧ p.dropId = none) ∨
         ((p.publicKeys.getD []).isEmpty = true ∧ p.numKeys = 0)) :
    (∃ e1, KeysTs.addKeys env chain rng p = (Except.error e1, [])) ∧
    (∃ e2, Part005.addKeys env chain rng p = (Except.error e2, [])) := by
  constructor
  · unfold KeysTs.addKeys
    rcases h with h | ⟨h1, h2⟩ | ⟨h1, h2⟩
    · rw [if_pos h]
      exact ⟨_, rfl⟩
    · by_cases hn : env.near = false
      · rw [if_pos hn]
        exact ⟨_, rfl⟩
      · rw [if_neg hn, if_pos (by simp [h1, h2])]
        exact ⟨_, rfl⟩
    · by_cases hn : env.near = false
      · rw [if_pos hn]
        exact ⟨_, rfl⟩
      · rw [if_neg hn]
        by_cases hdd : (p.drop.isNone && p.dropId.isNone) = true
        · rw [if_pos hdd]
          exact ⟨_, rfl⟩
        · rw [if_neg hdd, if_pos (by simp [h1, h2])]
          exact ⟨_, rfl⟩
  · unfold Part005.addKeys
    rcases h with h | ⟨h1, h2⟩ | ⟨h1, h2⟩
    · rw [if_pos h]
      exact ⟨_, rfl⟩
    · by_cases hn : env.near = false
      · rw [if_pos hn]
        exact ⟨_, rfl⟩
      · rw [if_neg hn, if_pos (by simp [h1, h2])]
        exact ⟨_, rfl⟩
    · by_cases hn : env.near = false
      · rw [if_pos hn]
        exact ⟨_, rfl⟩
      · rw [if_neg hn]
        by_cases hdd : (p.drop.isNone && p.dropId.isNone) = true
        · rw [if_pos hdd]
          exact ⟨_, rfl⟩
        · rw [if_neg hdd, if_pos (by simp [h1, h2])]
          exact ⟨_, rfl⟩

/-- C5 witness: a concrete call with a drop but neither `publicKeys` nor a
positive `numKeys` errors out with an empty network log in both variants. -/
theorem C5_witness :
    (∃ e1, KeysTs.addKeys envDemo chainDemo rngDemo { drop := some ftDrop }
        = (Except.error e1, [])) ∧
    (∃ e2, Part005.addKeys envDemo chainDemo rngDemo { drop := some ftDrop }
        = (Except.error e2, [])) :=
  C5_addKeys_precondition_errors envDemo chainDemo rngDemo { drop := some ftDrop }
    (Or.inr (Or.inr ⟨rfl, rfl⟩))

/-- C1: the claim states that for every fungible-token drop, `addKeys`
includes an `ft_transfer_call` whose amount equals
`balance_per_use * usesPerKey * numKeys`, carrying the drop id as `msg`.
On `ftDrop` (balance_per_use = 2, uses_per_key = 3) with 5 keys, the newer
`addKeys` (part_005) transfers exactly 2 * 5 * 3 = 30 with msg "12345", as
claimed; the older `addKeys` (keys.ts) instead transfers
`balance_per_use * (numKeys - registered_uses)` = 2 * (5 - 0) = 10,
omitting the uses-per-key factor — it contradicts the claim, the spec and
the newer implementation in the same repository. -/
theorem C1_ft_transfer_amount :
    ftTransfers (dispatchedTxs (Part005.addKeys envDemo chainDemo rngDemo
        { drop := some ftDrop, publicKeys := some ["pk1", "pk2", "pk3", "pk4", "pk5"] }).2)
      = [(2 * 5 * 3, "12345")] ∧
    ftTransfers (dispatchedTxs (KeysTs.addKeys envDemo chainDemo rngDemo
        { drop := some ftDrop, publicKeys := some ["pk1", "pk2", "pk3", "pk4", "pk5"] }).2)
      = [(2 * (5 - 0), "12345")] ∧
    (2 * (5 - 0) : Nat) ≠ 2 * 5 * 3 := by
  refine ⟨by rfl, by rfl, by decide⟩

/-- With explicit root entropy and no passed public keys, the key-resolution
block is fully determined by the entropy, the drop id, the next key id and
the number of keys; the random source is never consulted. -/
theorem resolveKeys_entropy (env : Env) (rng : Nat → KeyPair)
    (p : AddKeyParams) (re : String)
    (hpk : p.publicKeys = none) (hre : p.rootEntropy = some re) (d : Drop) :
    resolveKeys env rng p d =
      (some ((List.range p.numKeys).map fun i =>
          deriveKeyPair re (d.drop_id ++ "_" ++ Nat.repr (d.next_key_id + i))),
       ((List.range p.numKeys).map fun i =>
          deriveKeyPair re (d.drop_id ++ "_" ++ Nat.repr (d.next_key_id + i))).map
         (·.publicKey)) := by
  unfold resolveKeys generateKeys
  rw [hpk, hre]
  rw [show ((some re).orElse fun _ =>
      env.fundingAccountDetails.bind fun x => x.rootEntropy) = some re from rfl]
  have hpoint : ∀ i ∈ List.range p.numKeys,
      deriveKeyPair re ((((some ((List.range p.numKeys).map fun j =>
          d.drop_id ++ "_" ++ Nat.repr (d.next_key_id + j))).getD []).getD i "")) =
      deriveKeyPair re (d.drop_id ++ "_" ++ Nat.repr (d.next_key_id + i)) := by
    intro i hi
    have hlt : i < p.numKeys := List.mem_range.mp hi
    simp [List.getD_eq_getElem?_getD, List.getElem?_map, List.getElem?_range hlt]
  exact congrArg
    (fun L => (some L, List.map (fun x => x.publicKey) L))
    (List.map_congr_left hpoint)

/-- Without root entropy anywhere (neither passed in nor on the funder) and
no passed public keys, the keys come from the random source. -/
theorem resolveKeys_random (env : Env) (rng : Nat → KeyPair)
    (p : AddKeyParams)
    (hpk : p.publicKeys = none) (hre : p.rootEntropy = none)
    (hf : env.fundingAccountDetails.bind (·.rootEntropy) = none) (d : Drop) :
    resolveKeys env rng p d =
      (some ((List.range p.numKeys).map rng),
       ((List.range p.numKeys).map rng).map (·.publicKey)) := by
  unfold resolveKeys generateKeys
  rw [hpk, hre]
  rw [show ((none : Option String).orElse fun _ =>
      env.fundingAccountDetails.bind fun x => x.rootEntropy) =
      env.fundingAccountDetails.bind fun x => x.rootEntropy from rfl]
  rw [hf]

theorem KeysTs_addKeysWithDrop_rng_irrelevant (env : Env) (chain : Chain)
    (rng rng2 : Nat → KeyPair) (p : AddKeyParams) (re : String)
    (hpk : p.publicKeys = none) (hre : p.rootEntropy = some re)
    (d : Drop) (log0 : List NetCall) :
    KeysTs.addKeysWithDrop env chain rng p d log0
      = KeysTs.addKeysWithDrop env chain rng2 p d log0 := by
  unfold KeysTs.addKeysWithDrop
  rw [resolveKeys_entropy env rng p re hpk hre d,
      resolveKeys_entropy env rng2 p re hpk hre d]

theorem Part005_addKeysWithDrop_rng_irrelevant (env : Env) (chain : Chain)
    (rng rng2 : Nat → KeyPair) (p : AddKeyParams) (re : String)
    (hpk : p.publicKeys = none) (hre : p.rootEntropy = some re)
    (d : Drop) (log0 : List NetCall) :
    Part005.addKeysWithDrop env chain rng p d log0
      = Part005.addKeysWithDrop env chain rng2 p d log0 := by
  unfold Part005.addKeysWithDrop
  rw [resolveKeys_entropy env rng p re hpk hre d,
      resolveKeys_entropy env rng2 p re hpk hre d]

theorem KeysTs_addKeysWithDrop_ok_keys (env : Env) (chain : Chain) (rng : Nat → KeyPair)
    (p : AddKeyParams) (d : Drop) (log0 : List NetCall)
    (r : CreateOrAddReturn) (log : List NetCall)
    (h : KeysTs.addKeysWithDrop env chain rng p d log0 = (Except.ok r, log)) :
    r = { dropId := d.drop_id, keys := (resolveKeys env rng p d).1 } := by
  unfold KeysTs.addKeysWithDrop at h
  simp only [] at h
  repeat' split at h
  all_goals
    first
      | exact Except.noConfusion (congrArg Prod.fst h)
      | exact (Except.ok.inj (congrArg Prod.fst h)).symm

theorem Part005_addKeysWithDrop_ok_keys (env : Env) (chain : Chain) (rng : Nat → KeyPair)
    (p : AddKeyParams) (d : Drop) (log0 : List NetCall)
    (r : CreateOrAddReturn) (log : List NetCall)
    (h : Part005.addKeysWithDrop env chain rng p d log0 = (Except.ok r, log)) :
    r = { dropId := d.drop_id, keys := (resolveKeys env rng p d).1 } := by
  unfold Part005.addKeysWithDrop at h
  simp only [] at h
  repeat' split at h
  all_goals
    first
      | exact Except.noConfusion (congrArg Prod.fst h)
      | exact (Except.ok.inj (congrArg Prod.fst h)).symm

theorem KeysTs_addKeys_ok_keys (env : Env) (chain : Chain) (rng : Nat → KeyPair)
    (p : AddKeyParams) (d : Drop) (r : CreateOrAddReturn) (log : List NetCall)
    (hd : p.drop = some d)
    (h : KeysTs.addKeys env chain rng p = (Except.ok r, log)) :
    r = { dropId := d.drop_id, keys := (resolveKeys env rng p d).1 } := by
  unfold KeysTs.addKeys at h
  by_cases h1 : env.near = false
  · rw [if_pos h1] at h
    exact Except.noConfusion (congrArg Prod.fst h)
  · rw [if_neg h1] at h
    by_cases h2 : (p.drop.isNone && p.dropId.isNone) = true
    · rw [if_pos h2] at h
      exact Except.noConfusion (congrArg Prod.fst h)
    · rw [if_neg h2] at h
      by_cases h3 : ((p.publicKeys.getD []).isEmpty && (p.numKeys == 0)) = true
      · rw [if_pos h3] at h
        exact Except.noConfusion (congrArg Prod.fst h)
      · rw [if_neg h3, hd] at h
        exact KeysTs_addKeysWithDrop_ok_keys env chain rng p d [] r log h

theorem Part005_addKeys_ok_keys (env : Env) (chain : Chain) (rng : Nat → KeyPair)
    (p : AddKeyParams) (d : Drop) (r : CreateOrAddReturn) (log : List NetCall)
    (hd : p.drop = some d)
    (h : Part005.addKeys env chain rng p = (Except.ok r, log)) :
    r = { dropId := d.drop_id, keys := (resolveKeys env rng p d).1 } := by
  unfold Part005.addKeys at h
  by_cases h1 : env.near = false
  · rw [if_pos h1] at h
    exact Except.noConfusion (congrArg Prod.fst h)
  · rw [if_neg h1] at h
    by_cases h2 : (p.drop.isNone && p.dropId.isNone) = true
    · rw [if_pos h2] at h
      exact Except.noConfusion (congrArg Prod.fst h)
    · rw [if_neg h2] at h
      by_cases h3 : ((p.numKeys == 0) && (p.publicKeys.getD []).isEmpty) = true
      · rw [if_pos h3] at h
        exact Except.noConfusion (congrArg Prod.fst h)
      · rw [if_neg h3] at h
        by_cases h4 : ¬(env.receiverId = "v1-3.keypom.near" ∨
            env.receiverId = "v1-3.keypom.testnet")
        · rw [if_pos h4] at h
          exact Except.noConfusion (congrArg Prod.fst h)
        · rw [if_neg h4, hd] at h
          exact Part005_addKeysWithDrop_ok_keys env chain rng p d [] r log h

theorem KeysTs_addKeys_rng_irrelevant (env : Env) (chain : Chain)
    (rng rng2 : Nat → KeyPair) (p : AddKeyParams) (re : String)
    (hpk : p.publicKeys = none) (hre : p.rootEntropy = some re) :
    KeysTs.addKeys env chain rng p = KeysTs.addKeys env chain rng2 p := by
  unfold KeysTs.addKeys
  by_cases h1 : env.near = false
  · simp only [if_pos h1]
  · simp only [if_neg h1]
    by_cases h2 : (p.drop.isNone && p.dropId.isNone) = true
    · simp only [if_pos h2]
    · simp only [if_neg h2]
      by_cases h3 : ((p.publicKeys.getD []).isEmpty && (p.numKeys == 0)) = true
      · simp only [if_pos h3]
      · simp only [if_neg h3]
        cases hdp : p.drop with
        | some d =>
            exact KeysTs_addKeysWithDrop_rng_irrelevant env chain rng rng2 p re hpk hre d []
        | none =>
            cases hc : chain.dropInfo (p.dropId.getD "") with
            | some d =>
                exact KeysTs_addKeysWithDrop_rng_irrelevant env chain rng rng2 p re hpk hre d _
            | none => rfl

theorem Part005_addKeys_rng_irrelevant (env : Env) (chain : Chain)
    (rng rng2 : Nat → KeyPair) (p : AddKeyParams) (re : String)
    (hpk : p.publicKeys = none) (hre : p.rootEntropy = some re) :
    Part005.addKeys env chain rng p = Part005.addKeys env chain rng2 p := by
  unfold Part005.addKeys
  by_cases h1 : env.near = false
  · simp only [if_pos h1]
  · simp only [if_neg h1]
    by_cases h2 : (p.drop.isNone && p.dropId.isNone) = true
    · simp only [if_pos h2]
    · simp only [if_neg h2]
      by_cases h3 : ((p.numKeys == 0) && (p.publicKeys.getD []).isEmpty) = true
      · simp only [if_pos h3]
      · simp only [if_neg h3]
        by_cases h4 : ¬(env.receiverId = "v1-3.keypom.near" ∨
            env.receiverId = "v1-3.keypom.testnet")
        · simp only [if_pos h4]
        · simp only [if_neg h4]
          cases hdp : p.drop with
          | some d =>
              exact Part005_addKeysWithDrop_rng_irrelevant env chain rng rng2 p re hpk hre d []
          | none =>
              cases hc : chain.dropInfo (p.dropId.getD "") with
              | some d =>
                  exact Part005_addKeysWithDrop_rng_irrelevant env chain rng rng2 p re hpk hre d _
              | none => rfl

/-- C4: with identical `rootEntropy`, `drop_id`, `next_key_id` and `numKeys`
and no explicit `publicKeys`, `addKeys` regenerates identical keypairs: the
whole call result is independent of the random source, and key `i` is
derived from the root entropy and the meta-entropy string
`"{drop_id}_{next_key_id + i}"` for `i = 0 .. numKeys-1`; absent root
entropy (neither passed in nor set on the funder) the keys are drawn from
the random source.  Stated for both `addKeys` variants. -/
theorem C4_addKeys_deterministic_generation (env : Env) (chain : Chain)
    (rng rng2 : Nat → KeyPair) (p : AddKeyParams) (d : Drop) :
    (∀ re, p.publicKeys = none → p.rootEntropy = some re →
      KeysTs.addKeys env chain rng p = KeysTs.addKeys env chain rng2 p ∧
      Part005.addKeys env chain rng p = Part005.addKeys env chain rng2 p) ∧
    (∀ re r log, p.publicKeys = none → p.rootEntropy = some re → p.drop = some d →
      (KeysTs.addKeys env chain rng p = (Except.ok r, log) ∨
       Part005.addKeys env chain rng p = (Except.ok r, log)) →
      r.keys = some ((List.range p.numKeys).map fun i =>
        deriveKeyPair re (d.drop_id ++ "_" ++ Nat.repr (d.next_key_id + i)))) ∧
    (∀ r log, p.publicKeys = none → p.rootEntropy = none →
      env.fundingAccountDetails.bind (·.rootEntropy) = none → p.drop = some d →
      (KeysTs.addKeys env chain rng p = (Except.ok r, log) ∨
       Part005.addKeys env chain rng p = (Except.ok r, log)) →
      r.keys = some ((List.range p.numKeys).map rng)) := by
  refine ⟨?_, ?_, ?_⟩
  · intro re hpk hre
    exact ⟨KeysTs_addKeys_rng_irrelevant env chain rng rng2 p re hpk hre,
           Part005_addKeys_rng_irrelevant env chain rng rng2 p re hpk hre⟩
  · rintro re r log hpk hre hd (h | h)
    · rw [KeysTs_addKeys_ok_keys env chain rng p d r log hd h]
      simp only [resolveKeys_entropy env rng p re hpk hre d]
    · rw [Part005_addKeys_ok_keys env chain rng p d r log hd h]
      simp only [resolveKeys_entropy env rng p re hpk hre d]
  · rintro r log hpk hre hf hd (h | h)
    · rw [KeysTs_addKeys_ok_keys env chain rng p d r log hd h]
      simp only [resolveKeys_random env rng p hpk hre hf d]
    · rw [Part005_addKeys_ok_keys env chain rng p d r log hd h]
      simp only [resolveKeys_random env rng p hpk hre hf d]

/-- A second random source, distinct from `rngDemo`. -/
def rngDemo2 : Nat → KeyPair := fun i => keyPairFromString ("ed25519:other" ++ Nat.repr i)

/-- C4 witness: a concrete entropy-based `addKeys` invocation is identical
under two different random sources, for both variants. -/
theorem C4_witness :
    KeysTs.addKeys envDemo chainDemo rngDemo
        { drop := some ftDrop, numKeys := 2, rootEntropy := some "my-root" }
      = KeysTs.addKeys envDemo chainDemo rngDemo2
        { drop := some ftDrop, numKeys := 2, rootEntropy := some "my-root" } ∧
    Part005.addKeys envDemo chainDemo rngDemo
        { drop := some ftDrop, numKeys := 2, rootEntropy := some "my-root" }
      = Part005.addKeys envDemo chainDemo rngDemo2
        { drop := some ftDrop, numKeys := 2, rootEntropy := some "my-root" } :=
  (C4_addKeys_deterministic_generation envDemo chainDemo rngDemo rngDemo2
    { drop := some ftDrop, numKeys := 2, rootEntropy := some "my-root" } ftDrop).1
    "my-root" rfl rfl

theorem KeysTs_addKeysWithDrop_insufficient (env : Env) (chain : Chain)
    (rng : Nat → KeyPair) (p : AddKeyParams) (d : Drop) (log0 : List NetCall)
    (hu : p.useBalance = true)
    (hbal : chain.userBalance ((getAccount env p.account p.wallet).getD "") <
        estimateRequiredDeposit d.deposit_per_use (resolveKeys env rng p d).2.length
          d.config.uses_per_key d.required_gas storagePointTwo (d.ft.getD {}) none) :
    KeysTs.addKeysWithDrop env chain rng p d log0 =
      (Except.error "Insufficient balance on Keypom to create drop. Use attached deposit instead.",
       log0 ++ [NetCall.view env.contractId "get_user_balance"]) := by
  unfold KeysTs.addKeysWithDrop
  exact if_pos ⟨hu, hbal⟩

theorem Part005_addKeysWithDrop_insufficient (env : Env) (chain : Chain)
    (rng : Nat → KeyPair) (p : AddKeyParams) (d : Drop) (log0 : List NetCall)
    (howner : d.owner_id = (getAccount env p.account p.wallet).getD "")
    (hpw : ¬(p.basePassword.isSome = true ∧ 50 < (resolveKeys env rng p d).2.length))
    (hu : p.useBalance = true)
    (hbal : chain.userBalance ((getAccount env p.account p.wallet).getD "") <
        estimateRequiredDeposit d.deposit_per_use (resolveKeys env rng p d).2.length
          d.config.uses_per_key d.required_gas storagePointTwo (d.ft.getD {}) d.fc) :
    Part005.addKeysWithDrop env chain rng p d log0 =
      (Except.error "Insufficient balance on Keypom to create drop. Use attached deposit instead.",
       log0 ++ [NetCall.view env.contractId "get_user_balance"]) := by
  unfold Part005.addKeysWithDrop
  simp only [if_neg (by simp [howner] :
    ¬d.owner_id ≠ (getAccount env p.account p.wallet).getD "")]
  simp only [if_neg hpw]
  exact if_pos ⟨hu, hbal⟩

/-- C2: for every `addKeys` invocation with `useBalance = true` whose
Keypom-contract balance is below the estimated required deposit, the
operation fails with the insufficient-balance error after the balance view
call, and no transaction is dispatched (in particular no `add_keys` call):
the failure is total, not a partial top-up.  The hypotheses pin the earlier
precondition checks so the call reaches the balance comparison.  Stated for
both `addKeys` variants. -/
theorem C2_useBalance_insufficient_hard_failure (env : Env) (chain : Chain) (rng : Nat → KeyPair)
    (p : AddKeyParams) (d : Drop)
    (hn : env.near = true) (hd : p.drop = some d)
    (hk : p.numKeys ≠ 0 ∨ (p.publicKeys.getD []).isEmpty = false)
    (hrecv : env.receiverId = "v1-3.keypom.near" ∨ env.receiverId = "v1-3.keypom.testnet")
    (howner : d.owner_id = (getAccount env p.account p.wallet).getD "")
    (hpw : ¬(p.basePassword.isSome = true ∧ 50 < (resolveKeys env rng p d).2.length))
    (hu : p.useBalance = true)
    (hbal1 : chain.userBalance ((getAccount env p.account p.wallet).getD "") <
        estimateRequiredDeposit d.deposit_per_use (resolveKeys env rng p d).2.length
          d.config.uses_per_key d.required_gas storagePointTwo (d.ft.getD {}) none)
    (hbal2 : chain.userBalance ((getAccount env p.account p.wallet).getD "") <
        estimateRequiredDeposit d.deposit_per_use (resolveKeys env rng p d).2.length
          d.config.uses_per_key d.required_gas storagePointTwo (d.ft.getD {}) d.fc) :
    KeysTs.addKeys env chain rng p =
      (Except.error "Insufficient balance on Keypom to create drop. Use attached deposit instead.",
       [NetCall.view env.contractId "get_user_balance"]) ∧
    Part005.addKeys env chain rng p =
      (Except.error "Insufficient balance on Keypom to create drop. Use attached deposit instead.",
       [NetCall.view env.contractId "get_user_balance"]) ∧
    noDispatch (KeysTs.addKeys env chain rng p).2 ∧
    noDispatch (Part005.addKeys env chain rng p).2 := by
  have hbool1 : ((p.publicKeys.getD []).isEmpty && (p.numKeys == 0)) = false := by
    rcases hk with h | h
    · simp [h]
    · simp [h]
  have hbool2 : ((p.numKeys == 0) && (p.publicKeys.getD []).isEmpty) = false := by
    rcases hk with h | h
    · simp [h]
    · simp [h]
  have e1 : KeysTs.addKeys env chain rng p =
      (Except.error "Insufficient balance on Keypom to create drop. Use attached deposit instead.",
       [NetCall.view env.contractId "get_user_balance"]) := by
    unfold KeysTs.addKeys
    rw [if_neg (by simp [hn]), if_neg (by simp [hd]), if_neg (by simp [hbool1]), hd]
    exact KeysTs_addKeysWithDrop_insufficient env chain rng p d [] hu hbal1
  have e2 : Part005.addKeys env chain rng p =
      (Except.error "Insufficient balance on Keypom to create drop. Use attached deposit instead.",
       [NetCall.view env.contractId "get_user_balance"]) := by
    unfold Part005.addKeys
    rw [if_neg (by simp [hn]), if_neg (by simp [hd]), if_neg (by simp [hbool2]),
        if_neg (by simp [hrecv]), hd]
    exact Part005_addKeysWithDrop_insufficient env chain rng p d [] howner hpw hu hbal2
  refine ⟨e1, e2, ?_, ?_⟩
  · rw [e1]
    simp [noDispatch, dispatchedTxs]
  · rw [e2]
    simp [noDispatch, dispatchedTxs]

/-- C2 witness: a concrete `useBalance` invocation with a zero Keypom
balance fails with the insufficient-balance error and dispatches nothing,
in both variants. -/
theorem C2_witness :
    KeysTs.addKeys envDemo chainDemo rngDemo
        { drop := some ftDrop, publicKeys := some ["pk1"], useBalance := true } =
      (Except.error "Insufficient balance on Keypom to create drop. Use attached deposit instead.",
       [NetCall.view envDemo.contractId "get_user_balance"]) ∧
    Part005.addKeys envDemo chainDemo rngDemo
        { drop := some ftDrop, publicKeys := some ["pk1"], useBalance := true } =
      (Except.error "Insufficient balance on Keypom to create drop. Use attached deposit instead.",
       [NetCall.view envDemo.contractId "get_user_balance"]) ∧
    noDispatch (KeysTs.addKeys envDemo chainDemo rngDemo
        { drop := some ftDrop, publicKeys := some ["pk1"], useBalance := true }).2 ∧
    noDispatch (Part005.addKeys envDemo chainDemo rngDemo
        { drop := some ftDrop, publicKeys := some ["pk1"], useBalance := true }).2 :=
  C2_useBalance_insufficient_hard_failure envDemo chainDemo rngDemo
    { drop := some ftDrop, publicKeys := some ["pk1"], useBalance := true } ftDrop
    rfl rfl (Or.inr rfl) (Or.inr rfl) rfl (by decide) rfl (by decide) (by decide)

/-- An action is an asset transfer-and-call carrying `msg` as its opaque
message. -/
def isTransferWithMsg (a : FcAction) (msg : String) : Prop :=
  (∃ rid amt, a.args = FcArgs.ftTransferCallArgs rid amt msg) ∨
  (∃ rid tid, a.args = FcArgs.nftTransferCallArgs rid tid msg)

theorem dispatchedTxs_append (a b : List NetCall) :
    dispatchedTxs (a ++ b) = dispatchedTxs a ++ dispatchedTxs b := by
  simp [dispatchedTxs]

theorem dispatchedTxs_ite_view (c : Prop) [Decidable c] (x y : String) :
    dispatchedTxs (if c then [NetCall.view x y] else []) = [] := by
  split <;> rfl

theorem dispatchedTxs_dispatch (txs : List Tx) :
    dispatchedTxs [NetCall.dispatch txs] = txs := by
  simp [dispatchedTxs]

theorem nftTransferCallTxs_transfers (c k : String) (tids : List String)
    (did g : String) :
    ∀ tx ∈ nftTransferCallTxs c k tids did g, ∀ a ∈ tx.actions,
      isTransferWithMsg a did := by
  intro tx htx a ha
  simp only [nftTransferCallTxs, List.mem_map] at htx
  obtain ⟨tid, _, rfl⟩ := htx
  simp only [List.mem_singleton] at ha
  subst ha
  exact Or.inr ⟨k, tid, rfl⟩

theorem KeysTs_addKeysWithDrop_order (env : Env) (chain : Chain) (rng : Nat → KeyPair)
    (p : AddKeyParams) (d : Drop) (log0 : List NetCall)
    (hlog0 : dispatchedTxs log0 = []) :
    dispatchedTxs (KeysTs.addKeysWithDrop env chain rng p d log0).2 = [] ∨
    ∃ pw dep rest,
      dispatchedTxs (KeysTs.addKeysWithDrop env chain rng p d log0).2 =
        { receiverId := env.receiverId,
          actions := [{ methodName := "add_keys",
                        args := FcArgs.addKeysArgs d.drop_id (resolveKeys env rng p d).2 pw,
                        gas := env.gas, deposit := dep }] } :: rest ∧
      ∀ tx ∈ rest, ∀ a ∈ tx.actions, isTransferWithMsg a d.drop_id := by
  unfold KeysTs.addKeysWithDrop
  simp only []
  split
  · left
    rw [dispatchedTxs_append, hlog0]
    rfl
  · right
    refine ⟨none,
      if p.useBalance = true then none
      else some (estimateRequiredDeposit d.deposit_per_use
        (resolveKeys env rng p d).2.length d.config.uses_per_key d.required_gas
        storagePointTwo (d.ft.getD {}) none),
      (match (d.ft.getD {}).contract_id with
        | some ftc =>
            [ftTransferCallTx ftc env.contractId
              (((d.ft.getD {}).balance_per_use.getD 0) *
                ((resolveKeys env rng p d).2.length - d.registered_uses))
              d.drop_id env.gas300]
        | none => []) ++
        dispatchedTxs (match p.nftTokenIds with
        | some tids =>
          if 0 < tids.length then
            [NetCall.dispatch
              (nftTransferCallTxs ((d.nft.getD {}).contract_id.getD "") env.contractId
                tids d.drop_id env.gas300)]
          else []
        | none => []), ?_, ?_⟩
    · simp only [dispatchedTxs_append, hlog0, dispatchedTxs_ite_view,
        dispatchedTxs_dispatch, List.nil_append, List.append_nil, List.cons_append,
        List.singleton_append]
    · intro tx htx a ha
      rcases List.mem_append.mp htx with hft | hnft
      · split at hft
        next ftc heq =>
          simp only [List.mem_singleton] at hft
          subst hft
          simp only [ftTransferCallTx, List.mem_singleton] at ha
          subst ha
          exact Or.inl ⟨env.contractId, _, rfl⟩
        next heq => simp at hft
      · split at hnft
        next tids heq =>
          split at hnft
          · rw [dispatchedTxs_dispatch] at hnft
            exact nftTransferCallTxs_transfers _ _ _ _ _ tx hnft a ha
          · simp [dispatchedTxs] at hnft
        next heq => simp [dispatchedTxs] at hnft

theorem Part005_addKeysWithDrop_order (env : Env) (chain : Chain) (rng : Nat → KeyPair)
    (p : AddKeyParams) (d : Drop) (log0 : List NetCall)
    (hlog0 : dispatchedTxs log0 = []) :
    dispatchedTxs (Part005.addKeysWithDrop env chain rng p d log0).2 = [] ∨
    ∃ pw dep rest,
      dispatchedTxs (Part005.addKeysWithDrop env chain rng p d log0).2 =
        { receiverId := env.receiverId,
          actions := [{ methodName := "add_keys",
                        args := FcArgs.addKeysArgs d.drop_id (resolveKeys env rng p d).2 pw,
                        gas := env.gas, deposit := dep }] } :: rest ∧
      ∀ tx ∈ rest, ∀ a ∈ tx.actions, isTransferWithMsg a d.drop_id := by
  unfold Part005.addKeysWithDrop
  simp only []
  split
  · exact Or.inl hlog0
  · split
    · exact Or.inl hlog0
    · split
      · left
        rw [dispatchedTxs_append, hlog0]
        rfl
      · have hft : ∀ a ∈ (match (d.ft.getD {}).contract_id with
            | some ftc =>
                [ftTransferCallTx ftc env.contractId
                  (((d.ft.getD {}).balance_per_use.getD 0) *
                    (resolveKeys env rng p d).2.length * d.config.uses_per_key)
                  d.drop_id env.gas300]
            | none => ([] : List Tx)), ∀ b ∈ a.actions, isTransferWithMsg b d.drop_id := by
          intro tx htx b hb
          split at htx
          next ftc heq =>
            simp only [List.mem_singleton] at htx
            subst htx
            simp only [ftTransferCallTx, List.mem_singleton] at hb
            subst hb
            exact Or.inl ⟨env.contractId, _, rfl⟩
          next heq => simp at htx
        split
        next tids heq =>
          split
          · split
            · left
              simp only [dispatchedTxs_append, hlog0, dispatchedTxs_ite_view,
                List.nil_append, List.append_nil]
            · right
              refine ⟨(match p.basePassword with
                | some bp =>
                    some (generatePerUsePasswords (resolveKeys env rng p d).2 bp
                      (p.passwordProtectedUses.getD
                        ((List.range d.config.uses_per_key).map (· + 1))))
                | none => none),
                if p.useBalance = true then none
                else some (estimateRequiredDeposit d.deposit_per_use
                  (resolveKeys env rng p d).2.length d.config.uses_per_key d.required_gas
                  storagePointTwo (d.ft.getD {}) d.fc),
                (match (d.ft.getD {}).contract_id with
                  | some ftc =>
                      [ftTransferCallTx ftc env.contractId
                        (((d.ft.getD {}).balance_per_use.getD 0) *
                          (resolveKeys env rng p d).2.length * d.config.uses_per_key)
                        d.drop_id env.gas300]
                  | none => []) ++
                  nftTransferCallTxs ((d.nft.getD {}).contract_id.getD "") env.contractId
                    tids d.drop_id env.gas300, ?_, ?_⟩
              · simp only [dispatchedTxs_append, hlog0, dispatchedTxs_ite_view,
                  dispatchedTxs_dispatch, List.nil_append, List.append_nil,
                  List.cons_append, List.singleton_append, List.append_assoc]
              · intro tx htx a ha
                rcases List.mem_append.mp htx with h1 | h2
                · exact hft tx h1 a ha
                · exact nftTransferCallTxs_transfers _ _ _ _ _ tx h2 a ha
          · right
            refine ⟨(match p.basePassword with
              | some bp =>
                  some (generatePerUsePasswords (resolveKeys env rng p d).2 bp
                    (p.passwordProtectedUses.getD
                      ((List.range d.config.uses_per_key).map (· + 1))))
              | none => none),
              if p.useBalance = true then none
              else some (estimateRequiredDeposit d.deposit_per_use
                (resolveKeys env rng p d).2.length d.config.uses_per_key d.required_gas
                storagePointTwo (d.ft.getD {}) d.fc),
              (match (d.ft.getD {}).contract_id with
                | some ftc =>
                    [ftTransferCallTx ftc env.contractId
                      (((d.ft.getD {}).balance_per_use.getD 0) *
                        (resolveKeys env rng p d).2.length * d.config.uses_per_key)
                      d.drop_id env.gas300]
                | none => []), ?_, ?_⟩
            · simp only [dispatchedTxs_append, hlog0, dispatchedTxs_ite_view,
                dispatchedTxs_dispatch, List.nil_append, List.append_nil,
                List.cons_append, List.singleton_append]
            · intro tx htx a ha
              exact hft tx htx a ha
        next heq =>
          right
          refine ⟨(match p.basePassword with
            | some bp =>
                some (generatePerUsePasswords (resolveKeys env rng p d).2 bp
                  (p.passwordProtectedUses.getD
                    ((List.range d.config.uses_per_key).map (· + 1))))
            | none => none),
            if p.useBalance = true then none
            else some (estimateRequiredDeposit d.deposit_per_use
              (resolveKeys env rng p d).2.length d.config.uses_per_key d.required_gas
              storagePointTwo (d.ft.getD {}) d.fc),
            (match (d.ft.getD {}).contract_id with
              | some ftc =>
                  [ftTransferCallTx ftc env.contractId
                    (((d.ft.getD {}).balance_per_use.getD 0) *
                      (resolveKeys env rng p d).2.length * d.config.uses_per_key)
                    d.drop_id env.gas300]
              | none => []), ?_, ?_⟩
          · simp only [dispatchedTxs_append, hlog0, dispatchedTxs_ite_view,
              dispatchedTxs_dispatch, List.nil_append, List.append_nil,
              List.cons_append, List.singleton_append]
          · intro tx htx a ha
            exact hft tx htx a ha

theorem Part005_deleteKeys_order (env : Env) (chain : Chain) (p : DeleteKeyParams) :
    dispatchedTxs (Part005.deleteKeys env chain p).2 = [] ∨
    ∃ dropId pre,
      dispatchedTxs (Part005.deleteKeys env chain p).2 =
        [{ receiverId := env.receiverId,
           actions := pre ++
             [{ methodName := "delete_keys",
                args := FcArgs.deleteKeysArgs dropId (p.publicKeys.map key2str),
                gas := "100000000000000" }] ++
             (if p.withdrawBalance = true then
               [{ methodName := "withdraw_from_balance",
                  args := FcArgs.withdrawFromBalanceArgs, gas := "100000000000000" }]
              else []) }] ∧
      (∀ a ∈ pre, a.methodName = "refund_assets") ∧
      (∀ tx ∈ dispatchedTxs (Part005.deleteKeys env chain p).2, ∀ a ∈ tx.actions,
        a.methodName ≠ "ft_transfer_call" ∧ a.methodName ≠ "nft_transfer_call") := by
  unfold Part005.deleteKeys
  simp only []
  split
  · exact Or.inl rfl
  · split
    · exact Or.inl rfl
    next od d hd =>
      split
      · exact Or.inl rfl
      · right
        refine ⟨d.drop_id,
          (if (d.ft.isSome = true ∨ d.nft.isSome = true) ∧ 0 < d.registered_uses then
            [{ methodName := "refund_assets", args := FcArgs.refundAssetsArgs d.drop_id,
               gas := "100000000000000" }]
           else []), ?_, ?_, ?_⟩
        · simp [dispatchedTxs]
        · intro a hpre
          split at hpre
          · simp only [List.mem_singleton] at hpre
            subst hpre
            rfl
          · simp at hpre
        · intro tx htx a ha
          simp only [dispatchedTxs, List.map, List.flatten, List.nil_append,
            List.append_nil, List.mem_singleton] at htx
          subst htx
          simp only [List.mem_append] at ha
          rcases ha with (h1 | h2) | h3
          · split at h1
            · simp only [List.mem_singleton] at h1
              subst h1
              exact ⟨by simp, by simp⟩
            · simp at h1
          · simp only [List.mem_singleton] at h2
            subst h2
            exact ⟨by simp, by simp⟩
          · split at h3
            · simp only [List.mem_singleton] at h3
              subst h3
              exact ⟨by simp, by simp⟩
            · simp at h3

/-- C3: fixed orchestration order.  In every batch built by `addKeys` (both
variants), the Keypom-contract-directed `add_keys` transaction comes first
and every later transaction in the batch is an asset transfer-and-call
(`ft_transfer_call` / `nft_transfer_call`) carrying that same drop id as
its opaque `msg`; in every batch built by `deleteKeys`, the single
transaction consists of optional `refund_assets` actions, then
`delete_keys`, with the optional `withdraw_from_balance` action always
last, and contains no transfer-and-call actions. -/
theorem C3_transaction_order (env : Env) (chain : Chain) (rng : Nat → KeyPair)
    (p : AddKeyParams) (q : DeleteKeyParams) :
    (dispatchedTxs (KeysTs.addKeys env chain rng p).2 = [] ∨
     ∃ dropId pks pw dep rest,
       dispatchedTxs (KeysTs.addKeys env chain rng p).2 =
         { receiverId := env.receiverId,
           actions := [{ methodName := "add_keys",
                         args := FcArgs.addKeysArgs dropId pks pw,
                         gas := env.gas, deposit := dep }] } :: rest ∧
       ∀ tx ∈ rest, ∀ a ∈ tx.actions, isTransferWithMsg a dropId) ∧
    (dispatchedTxs (Part005.addKeys env chain rng p).2 = [] ∨
     ∃ dropId pks pw dep rest,
       dispatchedTxs (Part005.addKeys env chain rng p).2 =
         { receiverId := env.receiverId,
           actions := [{ methodName := "add_keys",
                         args := FcArgs.addKeysArgs dropId pks pw,
                         gas := env.gas, deposit := dep }] } :: rest ∧
       ∀ tx ∈ rest, ∀ a ∈ tx.actions, isTransferWithMsg a dropId) ∧
    (dispatchedTxs (Part005.deleteKeys env chain q).2 = [] ∨
     ∃ dropId pre,
       dispatchedTxs (Part005.deleteKeys env chain q).2 =
         [{ receiverId := env.receiverId,
            actions := pre ++
              [{ methodName := "delete_keys",
                 args := FcArgs.deleteKeysArgs dropId (q.publicKeys.map key2str),
                 gas := "100000000000000" }] ++
              (if q.withdrawBalance = true then
                [{ methodName := "withdraw_from_balance",
                   args := FcArgs.withdrawFromBalanceArgs, gas := "100000000000000" }]
               else []) }] ∧
       (∀ a ∈ pre, a.methodName = "refund_assets") ∧
       (∀ tx ∈ dispatchedTxs (Part005.deleteKeys env chain q).2, ∀ a ∈ tx.actions,
         a.methodName ≠ "ft_transfer_call" ∧ a.methodName ≠ "nft_transfer_call")) := by
  refine ⟨?_, ?_, Part005_deleteKeys_order env chain q⟩
  · unfold KeysTs.addKeys
    by_cases h1 : env.near = false
    · simp only [if_pos h1]
      exact Or.inl rfl
    · simp only [if_neg h1]
      by_cases h2 : (p.drop.isNone && p.dropId.isNone) = true
      · simp only [if_pos h2]
        exact Or.inl rfl
      · simp only [if_neg h2]
        by_cases h3 : ((p.publicKeys.getD []).isEmpty && (p.numKeys == 0)) = true
        · simp only [if_pos h3]
          exact Or.inl rfl
        · simp only [if_neg h3]
          cases hdp : p.drop with
          | some d =>
              rcases KeysTs_addKeysWithDrop_order env chain rng p d [] rfl with
                h | ⟨pw, dep, rest, he, ht⟩
              · exact Or.inl h
              · exact Or.inr ⟨d.drop_id, (resolveKeys env rng p d).2, pw, dep, rest, he, ht⟩
          | none =>
              cases hc : chain.dropInfo (p.dropId.getD "") with
              | some d =>
                  rcases KeysTs_addKeysWithDrop_order env chain rng p d
                      [NetCall.view env.contractId "get_drop_information"] rfl with
                    h | ⟨pw, dep, rest, he, ht⟩
                  · exact Or.inl h
                  · exact Or.inr ⟨d.drop_id, (resolveKeys env rng p d).2, pw, dep, rest, he, ht⟩
              | none => exact Or.inl rfl
  · unfold Part005.addKeys
    by_cases h1 : env.near = false
    · simp only [if_pos h1]
      exact Or.inl rfl
    · simp only [if_neg h1]
      by_cases h2 : (p.drop.isNone && p.dropId.isNone) = true
      · simp only [if_pos h2]
        exact Or.inl rfl
      · simp only [if_neg h2]
        by_cases h3 : ((p.numKeys == 0) && (p.publicKeys.getD []).isEmpty) = true
        · simp only [if_pos h3]
          exact Or.inl rfl
        · simp only [if_neg h3]
          by_cases h4 : ¬(env.receiverId = "v1-3.keypom.near" ∨
              env.receiverId = "v1-3.keypom.testnet")
          · simp only [if_pos h4]
            exact Or.inl rfl
          · simp only [if_neg h4]
            cases hdp : p.drop with
            | some d =>
                rcases Part005_addKeysWithDrop_order env chain rng p d [] rfl with
                  h | ⟨pw, dep, rest, he, ht⟩
                · exact Or.inl h
                · exact Or.inr ⟨d.drop_id, (resolveKeys env rng p d).2, pw, dep, rest, he, ht⟩
            | none =>
                cases hc : chain.dropInfo (p.dropId.getD "") with
                | some d =>
                    rcases Part005_addKeysWithDrop_order env chain rng p d
                        [NetCall.view env.contractId "get_drop_information"] rfl with
                      h | ⟨pw, dep, rest, he, ht⟩
                    · exact Or.inl h
                    · exact Or.inr ⟨d.drop_id, (resolveKeys env rng p d).2, pw, dep, rest, he, ht⟩
                | none => exact Or.inl rfl

/-- C3 witness: the order property applied at a concrete deletion with
balance withdrawal. -/
theorem C3_witness :
    dispatchedTxs (Part005.deleteKeys envDemo chainDemo
        { publicKeys := ["pk1"], dropId := "12345", withdrawBalance := true }).2 = [] ∨
    ∃ dropId pre,
      dispatchedTxs (Part005.deleteKeys envDemo chainDemo
          { publicKeys := ["pk1"], dropId := "12345", withdrawBalance := true }).2 =
        [{ receiverId := envDemo.receiverId,
           actions := pre ++
             [{ methodName := "delete_keys",
                args := FcArgs.deleteKeysArgs dropId
                  ((["pk1"] : List String).map key2str),
                gas := "100000000000000" }] ++
             (if true = true then
               [{ methodName := "withdraw_from_balance",
                  args := FcArgs.withdrawFromBalanceArgs, gas := "100000000000000" }]
              else []) }] ∧
      (∀ a ∈ pre, a.methodName = "refund_assets") ∧
      (∀ tx ∈ dispatchedTxs (Part005.deleteKeys envDemo chainDemo
          { publicKeys := ["pk1"], dropId := "12345", withdrawBalance := true }).2,
        ∀ a ∈ tx.actions,
        a.methodName ≠ "ft_transfer_call" ∧ a.methodName ≠ "nft_transfer_call") :=
  (C3_transaction_order envDemo chainDemo rngDemo
    { drop := some ftDrop, publicKeys := some ["pk1"] }
    { publicKeys := ["pk1"], dropId := "12345", withdrawBalance := true }).2.2
